import Mathlib

/-!
Verification of the reflection-agent control loop.

The definitions below are a shallow embedding of the repository's core:
`src/config.py` (constants), `src/models.py` (pydantic schemas and their
validation), `src/nodes.py` (the nodes `generate_initial_response`,
`execute_tools`, `revise_answer` and the conditional `should_continue`),
and `src/graph.py` (the compiled MessageGraph
generate -> execute_tools -> revise -> (execute_tools | END)).

Modelling conventions:
  - Python strings are Lean `String`s; the slice `s[:n]` is `pyTake s n`
    (the first `n` characters of `s.data`).
  - The search backend `search_tool.run` is a parameter
    `search : String -> Except String String`; `Except.error e` stands for
    a raised exception whose `str(e)` is `e`.
  - A Python dict with insertion order (`query_results`) is an association
    list built by `dictInsert`: assignment to an existing key overwrites in
    place, a new key is appended.
  - `ToolMessage(content=json.dumps(query_results), tool_call_id=...)` is
    modelled as `ToolMsg` carrying the ordered mapping itself; `json.dumps`
    preserves dict order and entries, so nothing the claims speak about is
    lost by not serialising.
  - An uncaught Python exception inside a node is an `ExecError` value:
    `attributeError` for `last_ai_message.tool_calls` on a message class
    without that attribute, `nameError` for the final verbose `print` that
    reads `search_queries` when the loop never assigned it, `indexError`
    for `state[-1]` on an empty list.  `protocolViolation` is a constructor
    the code never produces; it exists so that spec claims about a
    `ProtocolViolation` fault are statable.
  - The two LLM chains are one parameter
    `respond : List BaseMessage -> SchemaId -> List ToolCall` returning the
    `tool_calls` of the produced `AIMessage`; the `SchemaId` records which
    pydantic model the chain was bound to (`tool_choice`).
-/

-- ===========================================================================
-- Configuration constants (src/config.py)
-- ===========================================================================

def MAX_ITERATIONS : Nat := 2

def MAX_SEARCH_RESULTS : Nat := 3

def SEARCH_RESULT_LIMIT : Nat := 800

def VERBOSE : Bool := true

-- ===========================================================================
-- Python string slice s[:n]
-- ===========================================================================

def pyTake (s : String) (n : Nat) : String := String.mk (s.data.take n)

-- ===========================================================================
-- Messages and tool calls (langchain data reaching src/nodes.py)
-- ===========================================================================

/-- One entry of `AIMessage.tool_calls`: a name, an id, and the `args` dict,
of which the code only ever reads `args.get("search_queries", [])`,
modelled by the optional field `searchQueries?`. -/
structure ToolCall where
  name : String
  id : String
  searchQueries? : Option (List String)
deriving DecidableEq

/-- The message variants that occur in the graph state: `HumanMessage`,
`AIMessage` (with its `tool_calls`), and `ToolMessage` (content modelled as
the ordered query-to-snippet mapping it serialises). -/
inductive BaseMessage where
  | human (content : String)
  | ai (tool_calls : List ToolCall)
  | tool (results : List (String × String)) (tool_call_id : String)
deriving DecidableEq

def isToolMessage : BaseMessage → Bool
  | BaseMessage.tool _ _ => true
  | _ => false

def isAiMessage : BaseMessage → Bool
  | BaseMessage.ai _ => true
  | _ => false

/-- The tool-call names `execute_tools` reacts to
(`if tool_call["name"] in ["AnswerQuestion", "ReviseAnswer"]`). -/
def matchingCall (tc : ToolCall) : Prop :=
  tc.name = "AnswerQuestion" ∨ tc.name = "ReviseAnswer"

instance (tc : ToolCall) : Decidable (matchingCall tc) := by
  unfold matchingCall; infer_instance

-- ===========================================================================
-- execute_tools (src/nodes.py, NODE 2)
-- ===========================================================================

/-- One loop body iteration of `execute_tools`: run one query through the
search backend; on success truncate to `SEARCH_RESULT_LIMIT`, on an
exception store the error-marker string. -/
def runQuery (search : String → Except String String) (q : String) : String :=
  match search q with
  | Except.ok result => pyTake result SEARCH_RESULT_LIMIT
  | Except.error e => "Search unavailable: " ++ e

/-- Python dict assignment `d[k] = v` on an insertion-ordered dict held as an
association list: overwrite in place if the key exists, else append. -/
def dictInsert (d : List (String × String)) (k v : String) : List (String × String) :=
  if d.any (fun p => p.1 = k) then
    d.map (fun p => if p.1 = k then (k, v) else p)
  else
    d ++ [(k, v)]

/-- The `query_results` dict after the per-query loop of `execute_tools`. -/
def buildQueryResults (search : String → Except String String)
    (queries : List String) : List (String × String) :=
  queries.foldl (fun d q => dictInsert d q (runQuery search q)) []

/-- Keys of `buildQueryResults` in dict order: first occurrence of each
query, in input order. -/
def firstOccurrences (l : List String) : List String :=
  l.foldl (fun acc q => if q ∈ acc then acc else acc ++ [q]) []

/-- A `ToolMessage` produced by `execute_tools`. -/
structure ToolMsg where
  results : List (String × String)
  tool_call_id : String
deriving DecidableEq

def ToolMsg.toMessage (t : ToolMsg) : BaseMessage :=
  BaseMessage.tool t.results t.tool_call_id

/-- Uncaught Python exceptions of the nodes, plus the `ProtocolViolation`
fault named by the spec, which no code path produces. -/
inductive ExecError where
  | indexError
  | attributeError
  | nameError
  | protocolViolation
deriving DecidableEq

/-- The `for tool_call in last_ai_message.tool_calls` loop: accumulates the
`tool_messages` list and tracks the last value assigned to the local
variable `search_queries` (`none` = never assigned). -/
def processToolCalls (search : String → Except String String)
    (tcs : List ToolCall) : List ToolMsg × Option (List String) :=
  tcs.foldl
    (fun acc tc =>
      if matchingCall tc then
        (acc.1 ++ [ToolMsg.mk (buildQueryResults search (tc.searchQueries?.getD [])) tc.id],
         some (tc.searchQueries?.getD []))
      else acc)
    ([], none)

/-- The node `execute_tools`: read `state[-1]`, read its `tool_calls`
attribute, process them, and finally (only under verbose logging) read
`search_queries` for the closing print — a `NameError` if it was never
assigned. -/
def execute_tools (verbose : Bool) (search : String → Except String String)
    (state : List BaseMessage) : Except ExecError (List ToolMsg) :=
  match state.getLast? with
  | none => Except.error ExecError.indexError
  | some lastMsg =>
    match lastMsg with
    | BaseMessage.ai tool_calls =>
      match processToolCalls search tool_calls with
      | (tool_messages, sqVar) =>
        if verbose && sqVar.isNone then Except.error ExecError.nameError
        else Except.ok tool_messages
    | _ => Except.error ExecError.attributeError

-- ===========================================================================
-- should_continue (src/nodes.py, CONDITIONAL EDGE FUNCTION)
-- ===========================================================================

/-- The two values `should_continue` can return: the node name
`"execute_tools"` or langgraph's `END`. -/
inductive NextNode where
  | executeToolsNode
  | endNode
deriving DecidableEq

/-- The conditional edge: count ToolMessages in the state; reaching
`MAX_ITERATIONS` ends the graph, otherwise loop back to `execute_tools`. -/
def should_continue (maxIterations : Nat) (state : List BaseMessage) : NextNode :=
  if maxIterations ≤ state.countP (fun m => isToolMessage m) then NextNode.endNode
  else NextNode.executeToolsNode

deriving instance DecidableEq for Except

-- ===========================================================================
-- The two bound chains and the graph loop (src/nodes.py, src/graph.py)
-- ===========================================================================

/-- Which pydantic model a chain is bound to via
`bind_tools(tools=[...], tool_choice=...)`. -/
inductive SchemaId where
  | answerQuestionSchema
  | reviseAnswerSchema
deriving DecidableEq

/-- The node `generate_initial_response`: invoke the chain bound to
`AnswerQuestion` on the incoming messages and return the produced
`AIMessage`. -/
def generate_initial_response
    (respond : List BaseMessage → SchemaId → List ToolCall)
    (messages : List BaseMessage) : BaseMessage :=
  BaseMessage.ai (respond messages SchemaId.answerQuestionSchema)

/-- The node `revise_answer`: invoke the chain bound to `ReviseAnswer` on the
full conversation state and return the produced `AIMessage`. -/
def revise_answer
    (respond : List BaseMessage → SchemaId → List ToolCall)
    (state : List BaseMessage) : BaseMessage :=
  BaseMessage.ai (respond state SchemaId.reviseAnswerSchema)

/-- Outcome of invoking the compiled graph: the final state, an uncaught
exception, or divergence (the fuel bound of the embedding was hit; the real
graph would still be looping). -/
inductive LoopResult where
  | ok (history : List BaseMessage)
  | err (e : ExecError)
  | outOfFuel
deriving DecidableEq

/-- The cycle execute_tools -> revise -> should_continue of the compiled
graph (src/graph.py): append the ToolMessages, append the revision
`AIMessage`, then either stop with the full state or loop back. -/
def loopAux (verbose : Bool) (search : String → Except String String)
    (respond : List BaseMessage → SchemaId → List ToolCall)
    (maxIterations : Nat) : Nat → List BaseMessage → LoopResult
  | 0, _ => LoopResult.outOfFuel
  | fuel + 1, state =>
    match execute_tools verbose search state with
    | Except.error e => LoopResult.err e
    | Except.ok tms =>
      match should_continue maxIterations
          ((state ++ tms.map ToolMsg.toMessage) ++
            [revise_answer respond (state ++ tms.map ToolMsg.toMessage)]) with
      | NextNode.endNode =>
        LoopResult.ok ((state ++ tms.map ToolMsg.toMessage) ++
          [revise_answer respond (state ++ tms.map ToolMsg.toMessage)])
      | NextNode.executeToolsNode =>
        loopAux verbose search respond maxIterations fuel
          ((state ++ tms.map ToolMsg.toMessage) ++
            [revise_answer respond (state ++ tms.map ToolMsg.toMessage)])

/-- Invoking the compiled graph on `[HumanMessage(question)]`: run
`generate`, then enter the execute_tools/revise cycle. -/
def runReflectionLoop (verbose : Bool) (search : String → Except String String)
    (respond : List BaseMessage → SchemaId → List ToolCall)
    (maxIterations fuel : Nat) (question : String) : LoopResult :=
  loopAux verbose search respond maxIterations fuel
    ([BaseMessage.human question] ++
      [generate_initial_response respond [BaseMessage.human question]])

/-- Number of ToolMessages (= ResearchRecords) in a completed history. -/
def resultToolCount : LoopResult → Option Nat
  | LoopResult.ok h => some (h.countP (fun m => isToolMessage m))
  | _ => none

/-- Length of a completed history. -/
def resultLength : LoopResult → Option Nat
  | LoopResult.ok h => some h.length
  | _ => none

/-- Whether a completed history ends in an `AIMessage` whose single tool call
is a `ReviseAnswer` (the record `extract_final_answer` in src/main.py picks
as the terminal answer). -/
def terminalIsRevised : LoopResult → Bool
  | LoopResult.ok h =>
    match h.getLast? with
    | some (BaseMessage.ai [tc]) => tc.name == "ReviseAnswer"
    | _ => false
  | _ => false

/-- The behaviour `bind_tools(tool_choice=...)` forces on the generation
backend: every response carries exactly one tool call, named after the
schema the chain was bound to. -/
def ForcedToolChoice (respond : List BaseMessage → SchemaId → List ToolCall) : Prop :=
  ∀ s : List BaseMessage,
    (∃ tc : ToolCall, respond s SchemaId.answerQuestionSchema = [tc] ∧
      tc.name = "AnswerQuestion") ∧
    (∃ tc : ToolCall, respond s SchemaId.reviseAnswerSchema = [tc] ∧
      tc.name = "ReviseAnswer")

-- ===========================================================================
-- Pydantic schemas and their validation (src/models.py)
-- ===========================================================================

/-- The `Reflection` model: two required string fields. -/
structure Reflection where
  missing : String
  superfluous : String
deriving DecidableEq

/-- The `AnswerQuestion` model: answer, reflection, search_queries, all
required. -/
structure AnswerQuestion where
  answer : String
  reflection : Reflection
  search_queries : List String
deriving DecidableEq

/-- The `ReviseAnswer` model: inherits every `AnswerQuestion` field and adds
the required `references` field. -/
structure ReviseAnswer where
  answer : String
  reflection : Reflection
  search_queries : List String
  references : List String
deriving DecidableEq

/-- Raw keyword arguments arriving at the schema boundary: each field either
absent or a value of the declared type. -/
structure RawReflection where
  missing? : Option String
  superfluous? : Option String
deriving DecidableEq

/-- Raw arguments for the answer models. -/
structure RawArgs where
  answer? : Option String
  reflection? : Option RawReflection
  search_queries? : Option (List String)
  references? : Option (List String)
deriving DecidableEq

/-- Pydantic validation of `Reflection`: both fields must be present (the
`Field(description=...)` texts impose no value constraint). -/
def RawReflection.validate : RawReflection → Option Reflection
  | RawReflection.mk (some m) (some s) => some (Reflection.mk m s)
  | _ => none

/-- Pydantic validation of `AnswerQuestion`: all three fields must be
present with the declared types; no constraint on the answer's content or
the number of queries. -/
def AnswerQuestion.validate (r : RawArgs) : Option AnswerQuestion :=
  match r.answer?, r.reflection?, r.search_queries? with
  | some a, some refl, some sq =>
    match refl.validate with
    | some v => some (AnswerQuestion.mk a v sq)
    | none => none
  | _, _, _ => none

/-- Pydantic validation of `ReviseAnswer`: the inherited fields plus the
required `references`. -/
def ReviseAnswer.validate (r : RawArgs) : Option ReviseAnswer :=
  match AnswerQuestion.validate r, r.references? with
  | some base, some refs =>
    some (ReviseAnswer.mk base.answer base.reflection base.search_queries refs)
  | _, _ => none

/-- Required field names of the two schema variants, in pydantic's
declaration order (inherited fields first). -/
def schemaRequiredFields : SchemaId → List String
  | SchemaId.answerQuestionSchema => ["answer", "reflection", "search_queries"]
  | SchemaId.reviseAnswerSchema => ["answer", "reflection", "search_queries", "references"]

-- ===========================================================================
-- Concrete instantiations used by counterexamples and witnesses
-- ===========================================================================

/-- A concrete well-behaved generation backend: one forced tool call per
schema, one follow-up query. -/
def demoRespond : List BaseMessage → SchemaId → List ToolCall :=
  fun _ sid =>
    match sid with
    | SchemaId.answerQuestionSchema => [ToolCall.mk "AnswerQuestion" "call_0" (some ["q1"])]
    | SchemaId.reviseAnswerSchema => [ToolCall.mk "ReviseAnswer" "call_1" (some ["q2"])]

/-- A concrete search backend that always succeeds with a fixed snippet. -/
def demoSearch : String → Except String String := fun _ => Except.ok "snippet-1"

/-- A concrete search backend that fails on the query `"q1"` only. -/
def demoFailSearch : String → Except String String :=
  fun q => if q = "q1" then Except.error "boom" else Except.ok "ok"

/-- An 800-character exception text, longer than any truncated snippet may
be once the error marker is prepended. -/
def longErr : String := String.mk (List.replicate 800 'x')


-- ===========================================================================
-- Helper lemmas: strings
-- ===========================================================================

theorem string_length_append (s t : String) : (s ++ t).length = s.length + t.length := by
  cases s with
  | mk a =>
    cases t with
    | mk b =>
      show (a ++ b).length = a.length + b.length
      exact List.length_append a b

theorem pyTake_length_le (s : String) (n : Nat) : (pyTake s n).length ≤ n := by
  show (s.data.take n).length ≤ n
  rw [List.length_take]
  exact Nat.min_le_left _ _

-- ===========================================================================
-- Helper lemmas: the query_results dict
-- ===========================================================================

theorem dictInsert_map (f : String → String) (l : List String) (q : String) :
    dictInsert (l.map (fun x => (x, f x))) q (f q) =
      (if q ∈ l then l else l ++ [q]).map (fun x => (x, f x)) := by
  by_cases hq : q ∈ l
  · have hcond : (l.map (fun x => (x, f x))).any (fun p => decide (p.1 = q)) = true :=
      List.any_eq_true.mpr ⟨(q, f q), List.mem_map_of_mem _ hq, by simp⟩
    simp only [dictInsert, hcond, if_pos hq, if_true, List.map_map]
    apply List.map_congr_left
    intro x _
    by_cases hx : x = q
    · subst hx; simp
    · simp [hx]
  · have hcond : (l.map (fun x => (x, f x))).any (fun p => decide (p.1 = q)) = false := by
      rw [Bool.eq_false_iff]
      intro hany
      rcases List.any_eq_true.mp hany with ⟨p, hp, heq⟩
      rcases List.mem_map.mp hp with ⟨x, hx, rfl⟩
      have hxq : x = q := by simpa using heq
      subst hxq
      exact hq hx
    simp only [dictInsert, hcond, if_neg hq, Bool.false_eq_true, if_false]
    simp

theorem buildQueryResults_loop (search : String → Except String String) :
    ∀ (qs l : List String),
      qs.foldl (fun d q => dictInsert d q (runQuery search q))
          (l.map (fun x => (x, runQuery search x))) =
        (qs.foldl (fun acc q => if q ∈ acc then acc else acc ++ [q]) l).map
          (fun x => (x, runQuery search x)) := by
  intro qs
  induction qs with
  | nil => intro l; rfl
  | cons q qs ih =>
    intro l
    simp only [List.foldl_cons]
    rw [dictInsert_map (runQuery search) l q]
    exact ih (if q ∈ l then l else l ++ [q])

/-- The dict built by the research loop is, entry by entry, the first
occurrence of each query paired with that query's (deterministic) search
outcome. -/
theorem buildQueryResults_eq (search : String → Except String String)
    (queries : List String) :
    buildQueryResults search queries =
      (firstOccurrences queries).map (fun q => (q, runQuery search q)) := by
  have h := buildQueryResults_loop search queries []
  simpa [buildQueryResults, firstOccurrences] using h

theorem mem_foldl_firstOcc :
    ∀ (l acc : List String) (x : String),
      x ∈ acc ∨ x ∈ l →
      x ∈ l.foldl (fun a q => if q ∈ a then a else a ++ [q]) acc := by
  intro l
  induction l with
  | nil =>
    intro acc x h
    simpa using h
  | cons a l ih =>
    intro acc x h
    simp only [List.foldl_cons]
    apply ih
    by_cases ha : a ∈ acc
    · rw [if_pos ha]
      rcases h with h | h
      · exact Or.inl h
      · rcases List.mem_cons.mp h with rfl | h
        · exact Or.inl ha
        · exact Or.inr h
    · rw [if_neg ha]
      rcases h with h | h
      · exact Or.inl (List.mem_append.mpr (Or.inl h))
      · rcases List.mem_cons.mp h with rfl | h
        · exact Or.inl (List.mem_append.mpr (Or.inr (by simp)))
        · exact Or.inr h

theorem mem_firstOccurrences (l : List String) (x : String) (h : x ∈ l) :
    x ∈ firstOccurrences l :=
  mem_foldl_firstOcc l [] x (Or.inr h)

theorem foldl_firstOcc_nodup :
    ∀ (l acc : List String), l.Nodup → (∀ x ∈ l, x ∉ acc) →
      l.foldl (fun a q => if q ∈ a then a else a ++ [q]) acc = acc ++ l := by
  intro l
  induction l with
  | nil => intro acc _ _; simp
  | cons a l ih =>
    intro acc hnd hdisj
    simp only [List.foldl_cons]
    rw [if_neg (hdisj a (by simp))]
    rw [ih (acc ++ [a]) (List.nodup_cons.mp hnd).2 ?_]
    · simp
    · intro x hx hmem
      rcases List.mem_append.mp hmem with h | h
      · exact hdisj x (by simp [hx]) h
      · have hxa : x = a := by simpa using h
        subst hxa
        exact (List.nodup_cons.mp hnd).1 hx

theorem firstOccurrences_of_nodup (l : List String) (h : l.Nodup) :
    firstOccurrences l = l := by
  have := foldl_firstOcc_nodup l [] h (by simp)
  simpa [firstOccurrences] using this

-- ===========================================================================
-- Helper lemmas: execute_tools
-- ===========================================================================

theorem processToolCalls_single_matching (search : String → Except String String)
    (tc : ToolCall) (h : matchingCall tc) :
    processToolCalls search [tc] =
      ([ToolMsg.mk (buildQueryResults search (tc.searchQueries?.getD [])) tc.id],
       some (tc.searchQueries?.getD [])) := by
  simp only [processToolCalls, List.foldl_cons, List.foldl_nil]
  rw [if_pos h]
  simp

theorem execute_tools_last_matching (verbose : Bool)
    (search : String → Except String String) (pre : List BaseMessage)
    (tc : ToolCall) (h : matchingCall tc) :
    execute_tools verbose search (pre ++ [BaseMessage.ai [tc]]) =
      Except.ok [ToolMsg.mk (buildQueryResults search (tc.searchQueries?.getD [])) tc.id] := by
  unfold execute_tools
  rw [List.getLast?_concat]
  simp [processToolCalls_single_matching search tc h]

theorem processToolCalls_cons_no_match (search : String → Except String String)
    (tc : ToolCall) (tcs : List ToolCall) (h : ¬ matchingCall tc) :
    processToolCalls search (tc :: tcs) = processToolCalls search tcs := by
  simp only [processToolCalls, List.foldl_cons]
  rw [if_neg h]

theorem processToolCalls_no_match (search : String → Except String String)
    (tcs : List ToolCall) (h : ∀ tc ∈ tcs, ¬ matchingCall tc) :
    processToolCalls search tcs = ([], none) := by
  induction tcs with
  | nil => rfl
  | cons tc rest ih =>
    rw [processToolCalls_cons_no_match search tc rest (h tc (by simp))]
    exact ih (fun t ht => h t (by simp [ht]))

theorem execute_tools_no_matching (verbose : Bool)
    (search : String → Except String String) (pre : List BaseMessage)
    (tcs : List ToolCall) (h : ∀ tc ∈ tcs, ¬ matchingCall tc) :
    execute_tools verbose search (pre ++ [BaseMessage.ai tcs]) =
      (if verbose then Except.error ExecError.nameError else Except.ok []) := by
  unfold execute_tools
  rw [List.getLast?_concat]
  cases verbose <;> simp [processToolCalls_no_match search tcs h]

theorem execute_tools_not_ai (verbose : Bool)
    (search : String → Except String String) (pre : List BaseMessage)
    (m : BaseMessage) (hm : isAiMessage m = false) :
    execute_tools verbose search (pre ++ [m]) = Except.error ExecError.attributeError := by
  unfold execute_tools
  rw [List.getLast?_concat]
  cases m with
  | human c => rfl
  | ai tcs => simp [isAiMessage] at hm
  | tool r i => rfl

-- ===========================================================================
-- Helper lemmas: counting ToolMessages
-- ===========================================================================

theorem countP_append_tool (state : List BaseMessage) (r : List (String × String))
    (i : String) :
    (state ++ [BaseMessage.tool r i]).countP (fun m => isToolMessage m) =
      state.countP (fun m => isToolMessage m) + 1 := by
  simp [List.countP_append, List.countP_cons, isToolMessage]

theorem countP_append_ai (state : List BaseMessage) (tcs : List ToolCall) :
    (state ++ [BaseMessage.ai tcs]).countP (fun m => isToolMessage m) =
      state.countP (fun m => isToolMessage m) := by
  simp [List.countP_append, List.countP_cons, isToolMessage]

-- ===========================================================================
-- Helper lemmas: the loop
-- ===========================================================================

theorem demoForced : ForcedToolChoice demoRespond := by
  intro s
  exact ⟨⟨ToolCall.mk "AnswerQuestion" "call_0" (some ["q1"]), rfl, rfl⟩,
         ⟨ToolCall.mk "ReviseAnswer" "call_1" (some ["q2"]), rfl, rfl⟩⟩

theorem loopAux_spec (verbose : Bool) (search : String → Except String String)
    (respond : List BaseMessage → SchemaId → List ToolCall) (M : Nat)
    (hr : ForcedToolChoice respond) :
    ∀ (fuel : Nat) (pre : List BaseMessage) (tc : ToolCall),
      matchingCall tc →
      max 1 (M - (pre ++ [BaseMessage.ai [tc]]).countP (fun m => isToolMessage m)) ≤ fuel →
      ∃ (h : List BaseMessage) (tc2 : ToolCall),
        loopAux verbose search respond M fuel (pre ++ [BaseMessage.ai [tc]]) =
          LoopResult.ok h ∧
        h.countP (fun m => isToolMessage m) =
          max ((pre ++ [BaseMessage.ai [tc]]).countP (fun m => isToolMessage m) + 1) M ∧
        h.length = (pre ++ [BaseMessage.ai [tc]]).length +
          2 * (max ((pre ++ [BaseMessage.ai [tc]]).countP (fun m => isToolMessage m) + 1) M -
            (pre ++ [BaseMessage.ai [tc]]).countP (fun m => isToolMessage m)) ∧
        h.getLast? = some (BaseMessage.ai [tc2]) ∧ tc2.name = "ReviseAnswer" := by
  intro fuel
  induction fuel with
  | zero =>
    intro pre tc _ hfuel
    exact absurd hfuel (by omega)
  | succ n ih =>
    intro pre tc hm hfuel
    simp only [loopAux]
    rw [execute_tools_last_matching verbose search pre tc hm]
    simp only [List.map_cons, List.map_nil, ToolMsg.toMessage]
    obtain ⟨tc2, h2eq, h2name⟩ :=
      (hr ((pre ++ [BaseMessage.ai [tc]]) ++
        [BaseMessage.tool (buildQueryResults search (tc.searchQueries?.getD [])) tc.id])).2
    simp only [revise_answer, h2eq]
    have hc2 :
        (((pre ++ [BaseMessage.ai [tc]]) ++
            [BaseMessage.tool (buildQueryResults search (tc.searchQueries?.getD [])) tc.id]) ++
          [BaseMessage.ai [tc2]]).countP (fun m => isToolMessage m) =
        (pre ++ [BaseMessage.ai [tc]]).countP (fun m => isToolMessage m) + 1 := by
      rw [countP_append_ai, countP_append_tool]
    by_cases hM : M ≤ (pre ++ [BaseMessage.ai [tc]]).countP (fun m => isToolMessage m) + 1
    · rw [should_continue, if_pos (by rw [hc2]; exact hM)]
      refine ⟨_, tc2, rfl, ?_, ?_, ?_, h2name⟩
      · rw [hc2]
        omega
      · simp only [List.length_append, List.length_cons, List.length_nil]
        omega
      · exact List.getLast?_concat _
    · rw [should_continue, if_neg (by rw [hc2]; exact hM)]
      obtain ⟨h, tc3, heq, hcnt, hlen, hlast, hname3⟩ :=
        ih ((pre ++ [BaseMessage.ai [tc]]) ++
              [BaseMessage.tool (buildQueryResults search (tc.searchQueries?.getD [])) tc.id])
          tc2 (Or.inr h2name) (by rw [hc2]; omega)
      refine ⟨h, tc3, heq, ?_, ?_, hlast, hname3⟩
      · rw [hcnt, hc2]
        omega
      · rw [hlen, hc2]
        simp only [List.length_append, List.length_cons, List.length_nil]
        omega

theorem runLoop_spec (verbose : Bool) (search : String → Except String String)
    (respond : List BaseMessage → SchemaId → List ToolCall) (M fuel : Nat)
    (q : String) (hr : ForcedToolChoice respond) (hf : max 1 M ≤ fuel) :
    ∃ (h : List BaseMessage) (tc2 : ToolCall),
      runReflectionLoop verbose search respond M fuel q = LoopResult.ok h ∧
      h.countP (fun m => isToolMessage m) = max 1 M ∧
      h.length = 2 + 2 * max 1 M ∧
      h.getLast? = some (BaseMessage.ai [tc2]) ∧ tc2.name = "ReviseAnswer" := by
  obtain ⟨tc, htc, hname⟩ := (hr [BaseMessage.human q]).1
  have hc0 : ([BaseMessage.human q] ++ [BaseMessage.ai [tc]]).countP
      (fun m => isToolMessage m) = 0 := by
    simp [List.countP_append, List.countP_cons, isToolMessage]
  obtain ⟨h, tc2, heq, hcnt, hlen, hlast, hname2⟩ :=
    loopAux_spec verbose search respond M hr fuel [BaseMessage.human q] tc
      (Or.inl hname) (by rw [hc0]; omega)
  refine ⟨h, tc2, ?_, ?_, ?_, hlast, hname2⟩
  · rw [runReflectionLoop, generate_initial_response, htc]
    exact heq
  · rw [hcnt, hc0]
  · rw [hlen, hc0]
    simp only [List.length_append, List.length_cons, List.length_nil]
    omega

-- ===========================================================================
-- Claim C1
-- ===========================================================================

/-- Claim C1, counterexample: with `maxIterations = 0` the completed history
contains one ResearchRecord (ToolMessage), which exceeds the claimed bound
`maxIterations`, because the graph's fixed edges run
generate -> execute_tools -> revise once before `should_continue` is ever
consulted. -/
theorem loop_research_count_exceeds_zero_bound :
    resultToolCount (runReflectionLoop true demoSearch demoRespond 0 2 "What is X?") =
      some 1 ∧ ¬ (1 ≤ 0) := by decide

/-- Claim C1, amended: when every backend response carries exactly one forced
tool call, the number of ResearchRecords (ToolMessages) in the final history
equals `max 1 maxIterations` — exactly `maxIterations` for every
`maxIterations >= 1`, but `1` (exceeding the bound) for `maxIterations = 0`,
since the first research round runs on a fixed edge before any check.  The
continuation check does count completed research rounds (ToolMessages) and
returns END exactly when that count has reached `MAX_ITERATIONS`. -/
theorem loop_research_record_count (verbose : Bool)
    (search : String → Except String String)
    (respond : List BaseMessage → SchemaId → List ToolCall) (M fuel : Nat)
    (q : String) (hr : ForcedToolChoice respond) (hf : max 1 M ≤ fuel) :
    resultToolCount (runReflectionLoop verbose search respond M fuel q) =
      some (max 1 M) ∧
    (∀ s : List BaseMessage,
      should_continue M s = NextNode.endNode ↔
        M ≤ s.countP (fun m => isToolMessage m)) := by
  constructor
  · obtain ⟨h, tc2, heq, hcnt, _, _, _⟩ :=
      runLoop_spec verbose search respond M fuel q hr hf
    rw [heq]
    simp [resultToolCount, hcnt]
  · intro s
    by_cases hM : M ≤ s.countP (fun m => isToolMessage m)
    · simp [should_continue, hM]
    · simp [should_continue, hM]

/-- Claim C1, witness: a concrete run with `maxIterations = 2` finishing with
exactly two ResearchRecords. -/
theorem loop_research_record_count_witness :
    resultToolCount (runReflectionLoop true demoSearch demoRespond 2 2 "Q") =
      some (max 1 2) :=
  (loop_research_record_count true demoSearch demoRespond 2 2 "Q" demoForced
    (by decide)).1

-- ===========================================================================
-- Claim C2
-- ===========================================================================

/-- Claim C2, counterexample: with `MAX_ITERATIONS = 0` the final history has
four Turns (three beyond the question), not two, and research did run. -/
theorem max_iterations_zero_history_not_minimal :
    resultLength (runReflectionLoop true demoSearch demoRespond 0 2 "What is X?") =
      some 4 ∧
    resultToolCount (runReflectionLoop true demoSearch demoRespond 0 2 "What is X?") ≠
      some 0 := by decide

/-- Claim C2, amended: with `MAX_ITERATIONS = 0` the loop does not degenerate
to the reflection step alone — the fixed graph edges still run exactly one
research round and one revision, so the final history is
question, initial ReasoningRecord, ResearchRecord, revised ReasoningRecord
(length 4, one ToolMessage), and the terminal answer is the revised record
produced by the `ReviseAnswer` tool call, not the initial one. -/
theorem max_iterations_zero_still_runs_one_round (verbose : Bool)
    (search : String → Except String String)
    (respond : List BaseMessage → SchemaId → List ToolCall) (fuel : Nat)
    (q : String) (hr : ForcedToolChoice respond) (hf : 1 ≤ fuel) :
    resultLength (runReflectionLoop verbose search respond 0 fuel q) = some 4 ∧
    resultToolCount (runReflectionLoop verbose search respond 0 fuel q) = some 1 ∧
    terminalIsRevised (runReflectionLoop verbose search respond 0 fuel q) = true := by
  obtain ⟨h, tc2, heq, hcnt, hlen, hlast, hname2⟩ :=
    runLoop_spec verbose search respond 0 fuel q hr (by omega)
  rw [heq]
  refine ⟨?_, ?_, ?_⟩
  · simp [resultLength, hlen]
  · simp [resultToolCount, hcnt]
  · simp [terminalIsRevised, hlast, hname2]

/-- Claim C2, witness: a concrete `maxIterations = 0` run whose history has
length 4. -/
theorem max_iterations_zero_witness :
    resultLength (runReflectionLoop true demoSearch demoRespond 0 1 "What is X?") =
      some 4 :=
  (max_iterations_zero_still_runs_one_round true demoSearch demoRespond 1
    "What is X?" demoForced (by decide)).1

-- ===========================================================================
-- Claim C3
-- ===========================================================================

/-- Claim C3, counterexample: a duplicated query does not yield one entry per
occurrence — the Python dict collapses the two occurrences of `"a"` into a
single entry, so the key sequence differs from the query list. -/
theorem duplicate_query_collapses :
    (buildQueryResults demoSearch ["a", "a"]).length = 1 ∧
    (buildQueryResults demoSearch ["a", "a"]).map Prod.fst ≠ ["a", "a"] := by decide

/-- Claim C3, amended: `resultsByQuery` has exactly one entry per distinct
query, keyed in order of first occurrence and mapped to that query's search
outcome; when the issued queries are pairwise distinct the keys equal the
query list in the same order (and an empty query list yields an empty
mapping), but duplicated occurrences collapse into one entry. -/
theorem resultsByQuery_key_structure (search : String → Except String String)
    (queries : List String) :
    buildQueryResults search queries =
      (firstOccurrences queries).map (fun q => (q, runQuery search q)) ∧
    (queries.Nodup → (buildQueryResults search queries).map Prod.fst = queries) ∧
    buildQueryResults search [] = [] := by
  refine ⟨buildQueryResults_eq search queries, ?_, rfl⟩
  intro hnd
  rw [buildQueryResults_eq search queries, firstOccurrences_of_nodup queries hnd,
    List.map_map]
  have hid : (Prod.fst ∘ fun q => (q, runQuery search q)) = (id : String → String) := rfl
  rw [hid, List.map_id]

/-- Claim C3, witness: for two distinct queries the mapping's keys are the
queries in input order. -/
theorem resultsByQuery_key_structure_witness :
    (buildQueryResults demoSearch ["a", "b"]).map Prod.fst = ["a", "b"] :=
  (resultsByQuery_key_structure demoSearch ["a", "b"]).2.1 (by decide)

-- ===========================================================================
-- Claim C4
-- ===========================================================================

/-- Claim C4: a search-backend failure on one query is absorbed inside the
research step — the step still returns its ToolMessage (no exception escapes
for any backend), the failed query's entry is the error-marker string
carrying the cause, and every other issued query still gets its own entry. -/
theorem search_failure_absorbed (verbose : Bool)
    (search : String → Except String String) (pre : List BaseMessage)
    (tc : ToolCall) (hname : matchingCall tc) (q e : String)
    (hq : q ∈ tc.searchQueries?.getD []) (he : search q = Except.error e) :
    execute_tools verbose search (pre ++ [BaseMessage.ai [tc]]) =
      Except.ok [ToolMsg.mk (buildQueryResults search (tc.searchQueries?.getD [])) tc.id] ∧
    (q, "Search unavailable: " ++ e) ∈
      buildQueryResults search (tc.searchQueries?.getD []) ∧
    (∀ q2 ∈ tc.searchQueries?.getD [],
      (q2, runQuery search q2) ∈ buildQueryResults search (tc.searchQueries?.getD [])) := by
  refine ⟨execute_tools_last_matching verbose search pre tc hname, ?_, ?_⟩
  · have hrq : runQuery search q = "Search unavailable: " ++ e := by
      simp [runQuery, he]
    rw [← hrq, buildQueryResults_eq]
    exact List.mem_map_of_mem _ (mem_firstOccurrences _ q hq)
  · intro q2 hq2
    rw [buildQueryResults_eq]
    exact List.mem_map_of_mem _ (mem_firstOccurrences _ q2 hq2)

/-- Claim C4, witness: with a backend failing on `"q1"` only, the step
returns normally and stores the marker entry for `"q1"`. -/
theorem search_failure_absorbed_witness :
    execute_tools true demoFailSearch
        ([BaseMessage.human "q"] ++
          [BaseMessage.ai [ToolCall.mk "AnswerQuestion" "call_0" (some ["q1", "q2"])]]) =
      Except.ok [ToolMsg.mk (buildQueryResults demoFailSearch ["q1", "q2"]) "call_0"] ∧
    ("q1", "Search unavailable: " ++ "boom") ∈
      buildQueryResults demoFailSearch ["q1", "q2"] := by
  have A := search_failure_absorbed true demoFailSearch [BaseMessage.human "q"]
    (ToolCall.mk "AnswerQuestion" "call_0" (some ["q1", "q2"])) (Or.inl rfl)
    "q1" "boom" (by decide) (by decide)
  exact ⟨A.1, A.2.1⟩

-- ===========================================================================
-- Claim C5
-- ===========================================================================

/-- Claim C5, counterexample: when the last Turn is a ToolMessage, the
research step fails with an (untyped) AttributeError, which is not the
`ProtocolViolation` fault the claim requires. -/
theorem research_step_no_protocol_violation :
    execute_tools true demoSearch [BaseMessage.human "q", BaseMessage.tool [] "id"] =
      Except.error ExecError.attributeError ∧
    (Except.error ExecError.attributeError : Except ExecError (List ToolMsg)) ≠
      Except.error ExecError.protocolViolation := by decide

/-- Claim C5, amended: there is no `ProtocolViolation` check.  When the last
Turn is not an AI message, reading its `tool_calls` attribute raises an
untyped AttributeError; when it is an AI message without an
AnswerQuestion/ReviseAnswer tool call, the step (with verbose logging off)
returns the empty result list rather than failing; and the non-AI case
never produces a `ProtocolViolation` fault. -/
theorem research_step_error_kinds (verbose : Bool)
    (search : String → Except String String) (pre : List BaseMessage)
    (m : BaseMessage) (hm : isAiMessage m = false) :
    execute_tools verbose search (pre ++ [m]) = Except.error ExecError.attributeError ∧
    (∀ tcs : List ToolCall, (∀ tc ∈ tcs, ¬ matchingCall tc) →
      execute_tools false search (pre ++ [BaseMessage.ai tcs]) = Except.ok []) ∧
    execute_tools verbose search (pre ++ [m]) ≠ Except.error ExecError.protocolViolation := by
  have h1 := execute_tools_not_ai verbose search pre m hm
  refine ⟨h1, ?_, ?_⟩
  · intro tcs htcs
    have h2 := execute_tools_no_matching false search pre tcs htcs
    simpa using h2
  · rw [h1]
    decide

/-- Claim C5, witness: the concrete AttributeError case. -/
theorem research_step_error_kinds_witness :
    execute_tools true demoSearch ([BaseMessage.human "q"] ++ [BaseMessage.tool [] "id"]) =
      Except.error ExecError.attributeError :=
  (research_step_error_kinds true demoSearch [BaseMessage.human "q"]
    (BaseMessage.tool [] "id") (by decide)).1

-- ===========================================================================
-- Claim C6
-- ===========================================================================

/-- Claim C6: the revision node hands the structured responder the entire
accumulated state (the very list it received, not a suffix or summary) bound
to the revised schema, and the revised schema's required fields are a strict
superset of the initial schema's fields, the extra field being
`references`. -/
theorem revision_uses_full_history_and_superset_schema :
    (∀ (respond : List BaseMessage → SchemaId → List ToolCall)
        (state : List BaseMessage),
      revise_answer respond state =
        BaseMessage.ai (respond state SchemaId.reviseAnswerSchema)) ∧
    (∀ f : String, f ∈ schemaRequiredFields SchemaId.answerQuestionSchema →
      f ∈ schemaRequiredFields SchemaId.reviseAnswerSchema) ∧
    "references" ∈ schemaRequiredFields SchemaId.reviseAnswerSchema ∧
    "references" ∉ schemaRequiredFields SchemaId.answerQuestionSchema ∧
    (schemaRequiredFields SchemaId.answerQuestionSchema).length <
      (schemaRequiredFields SchemaId.reviseAnswerSchema).length := by
  refine ⟨fun _ _ => rfl, ?_, by decide, by decide, by decide⟩
  intro f hf
  simp only [schemaRequiredFields, List.mem_cons, List.not_mem_nil, or_false] at hf ⊢
  rcases hf with h | h | h
  · exact Or.inl h
  · exact Or.inr (Or.inl h)
  · exact Or.inr (Or.inr (Or.inl h))

/-- Claim C6, witness: a shared required field of both schemas. -/
theorem revision_schema_witness :
    "answer" ∈ schemaRequiredFields SchemaId.reviseAnswerSchema :=
  revision_uses_full_history_and_superset_schema.2.1 "answer" (by decide)

-- ===========================================================================
-- Claim C7
-- ===========================================================================

/-- Claim C7: a successful query's stored snippet is the backend result
truncated to `SEARCH_RESULT_LIMIT` characters (the slice `result[:800]`), so
every successful entry has length at most that limit, and the limit is
800. -/
theorem successful_snippet_truncated (search : String → Except String String)
    (q r : String) (h : search q = Except.ok r) :
    runQuery search q = pyTake r SEARCH_RESULT_LIMIT ∧
    (runQuery search q).length ≤ SEARCH_RESULT_LIMIT ∧
    SEARCH_RESULT_LIMIT = 800 := by
  have h1 : runQuery search q = pyTake r SEARCH_RESULT_LIMIT := by
    simp [runQuery, h]
  exact ⟨h1, by rw [h1]; exact pyTake_length_le r SEARCH_RESULT_LIMIT, rfl⟩

/-- Claim C7, witness: the always-succeeding backend's snippet obeys the
limit. -/
theorem successful_snippet_truncated_witness :
    runQuery demoSearch "q" = pyTake "snippet-1" SEARCH_RESULT_LIMIT ∧
    (runQuery demoSearch "q").length ≤ SEARCH_RESULT_LIMIT :=
  ⟨(successful_snippet_truncated demoSearch "q" "snippet-1" rfl).1,
   (successful_snippet_truncated demoSearch "q" "snippet-1" rfl).2.1⟩

-- ===========================================================================
-- Claim C8
-- ===========================================================================

/-- Claim C8, counterexample: the schema boundary accepts a record whose
answer is empty and whose search_queries has four entries — the pydantic
field descriptions impose no value constraints. -/
theorem schema_accepts_empty_answer_and_four_queries :
    AnswerQuestion.validate
        (RawArgs.mk (some "") (some (RawReflection.mk (some "m") (some "s")))
          (some ["a", "b", "c", "d"]) none) =
      some (AnswerQuestion.mk "" (Reflection.mk "m" "s") ["a", "b", "c", "d"]) ∧
    ("" : String).length = 0 ∧
    (["a", "b", "c", "d"] : List String).length = 4 := by decide

/-- Claim C8, amended: the schema boundary enforces only field presence and
types — any answer string (including the empty one) and any number of
queries validate; an absent required field is rejected; and `references` is
required by exactly the revised schema (so it appears exactly on records the
revision node produces), not checked against the history's research
rounds. -/
theorem schema_boundary_types_only :
    (∀ (a m s : String) (sq : List String) (r? : Option (List String)),
      AnswerQuestion.validate
          (RawArgs.mk (some a) (some (RawReflection.mk (some m) (some s)))
            (some sq) r?) =
        some (AnswerQuestion.mk a (Reflection.mk m s) sq)) ∧
    (∀ raw : RawArgs, raw.answer? = none → AnswerQuestion.validate raw = none) ∧
    (∀ raw : RawArgs, raw.references? = none → ReviseAnswer.validate raw = none) := by
  refine ⟨fun _ _ _ _ _ => rfl, ?_, ?_⟩
  · intro raw h
    cases raw with
    | mk a r sq rf =>
      change a = none at h
      subst h
      rfl
  · intro raw h
    cases raw with
    | mk a r sq rf =>
      change rf = none at h
      subst h
      cases hA : AnswerQuestion.validate (RawArgs.mk a r sq none) with
      | none => simp [ReviseAnswer.validate, hA]
      | some base => simp [ReviseAnswer.validate, hA]

/-- Claim C8, witness: a raw record missing `references` is rejected by the
revised schema. -/
theorem schema_boundary_types_only_witness :
    ReviseAnswer.validate
        (RawArgs.mk (some "a") (some (RawReflection.mk (some "m") (some "s")))
          (some []) none) = none :=
  schema_boundary_types_only.2.2
    (RawArgs.mk (some "a") (some (RawReflection.mk (some "m") (some "s")))
      (some []) none) rfl

-- ===========================================================================
-- Claim C9
-- ===========================================================================

/-- Claim C9: when the last message carries no AnswerQuestion/ReviseAnswer
tool call (for example an empty tool_calls list), the step under verbose
logging does not return the empty ToolMessage list — the closing log line
reads the never-assigned loop variable `search_queries` and raises a
NameError. -/
theorem verbose_logging_name_error (search : String → Except String String)
    (pre : List BaseMessage) (tcs : List ToolCall)
    (h : ∀ tc ∈ tcs, ¬ matchingCall tc) :
    execute_tools VERBOSE search (pre ++ [BaseMessage.ai tcs]) =
      Except.error ExecError.nameError ∧
    execute_tools VERBOSE search (pre ++ [BaseMessage.ai tcs]) ≠ Except.ok [] := by
  have h1 : execute_tools VERBOSE search (pre ++ [BaseMessage.ai tcs]) =
      Except.error ExecError.nameError := by
    rw [execute_tools_no_matching VERBOSE search pre tcs h]
    simp [VERBOSE]
  exact ⟨h1, by rw [h1]; decide⟩

/-- Claim C9, witness: the empty tool_calls list under the configured
verbose logging. -/
theorem verbose_logging_name_error_witness :
    execute_tools VERBOSE demoSearch ([BaseMessage.human "q"] ++ [BaseMessage.ai []]) =
      Except.error ExecError.nameError :=
  (verbose_logging_name_error demoSearch [BaseMessage.human "q"] [] (by decide)).1

-- ===========================================================================
-- Claim C10
-- ===========================================================================

/-- Claim C10: a failed query's entry is exactly the string
`"Search unavailable: "` concatenated with the exception text, stored
without truncation — its length is the marker's length plus the full cause's
length, so it can exceed `SEARCH_RESULT_LIMIT`. -/
theorem error_marker_untruncated (search : String → Except String String)
    (q e : String) (h : search q = Except.error e) :
    runQuery search q = "Search unavailable: " ++ e ∧
    (runQuery search q).length = "Search unavailable: ".length + e.length := by
  have h1 : runQuery search q = "Search unavailable: " ++ e := by
    simp [runQuery, h]
  exact ⟨h1, by rw [h1, string_length_append]⟩

set_option maxRecDepth 4000 in
/-- Claim C10, witness: an 800-character cause produces an 820-character
entry, exceeding the 800-character snippet limit. -/
theorem error_marker_untruncated_witness :
    runQuery (fun _ => Except.error longErr) "q" = "Search unavailable: " ++ longErr ∧
    SEARCH_RESULT_LIMIT < (runQuery (fun _ => Except.error longErr) "q").length := by
  have A := error_marker_untruncated (fun _ => Except.error longErr) "q" longErr rfl
  refine ⟨A.1, ?_⟩
  rw [A.2]
  decide
